import Mathlib

/- Verification development for the bank-lending backend (backend/server.js).

   The JavaScript handlers are embedded shallowly: amounts are exact
   rationals, the relational store is a record of three append-friendly
   lists, each HTTP handler becomes a function from state and request to a
   pair of post-state and result, and injected Boolean flags stand for
   storage failures at the two write points and the payment fetch of the
   payment-recording transaction. JavaScript truthiness on request fields
   (undefined, empty string, numeric zero are falsy) is modelled
   explicitly, since the validation code relies on it. -/

attribute [local semireducible] Rat.mul Rat.add Rat.sub Rat.inv

set_option maxRecDepth 4000

namespace Bank

instance exceptDecEq {ε α : Type} [DecidableEq ε] [DecidableEq α] :
    DecidableEq (Except ε α) := fun x y =>
  match x, y with
  | .error a, .error b =>
    if h : a = b then .isTrue (by rw [h])
    else .isFalse (by intro hh; cases hh; exact h rfl)
  | .error a, .ok b => .isFalse (by intro hh; exact Except.noConfusion hh)
  | .ok a, .error b => .isFalse (by intro hh; exact Except.noConfusion hh)
  | .ok a, .ok b =>
    if h : a = b then .isTrue (by rw [h])
    else .isFalse (by intro hh; cases hh; exact h rfl)

inductive LoanStatus
  | ACTIVE
  | PAID_OFF
deriving DecidableEq, Repr

/-- Rendering of a loan status as the string stored in the database and
interpolated into response messages. -/
def statusText : LoanStatus → String
  | .ACTIVE => "ACTIVE"
  | .PAID_OFF => "PAID_OFF"

structure Customer where
  customer_id : String
  name : String
deriving DecidableEq, Repr

/-- Row of the Loans table (database.js schema). -/
structure Loan where
  loan_id : String
  customer_id : String
  principal_amount : ℚ
  total_amount : ℚ
  interest_rate : ℚ
  loan_period_years : ℚ
  monthly_emi : ℚ
  status : LoanStatus
deriving DecidableEq, Repr

/-- Row of the Payments table; payment_type is the stored string, either
EMI or LUMP_SUM for rows produced by the handler. -/
structure Payment where
  payment_id : String
  loan_id : String
  amount : ℚ
  payment_type : String
deriving DecidableEq, Repr

/-- The persistent store: three relations. The payments list is kept in
insertion order, which coincides with the payment_date ordering used by
the ledger query since timestamps are server-assigned at insert time. -/
structure DBState where
  customers : List Customer
  loans : List Loan
  payments : List Payment
deriving DecidableEq, Repr

/-- Result record of calculateLoanDetails (server.js lines 14 to 19). -/
structure LoanDetails where
  totalAmount : ℚ
  monthlyEmi : ℚ
  interest : ℚ
deriving DecidableEq, Repr

/-- calculateLoanDetails (server.js lines 14 to 19): simple interest,
total payable, and monthly EMI. -/
def calculateLoanDetails (principal years rate : ℚ) : LoanDetails :=
  let interest := principal * years * (rate / 100)
  let totalAmount := principal + interest
  let monthlyEmi := totalAmount / (years * 12)
  { totalAmount := totalAmount, monthlyEmi := monthlyEmi, interest := interest }

/-- Body of POST /api/v1/loans; a missing field is none. -/
structure LoanRequest where
  customer_id : Option String
  loan_amount : Option ℚ
  loan_period_years : Option ℚ
  interest_rate_yearly : Option ℚ
deriving DecidableEq, Repr

/-- Body of POST /api/v1/loans/:loan_id/payments; a missing field is none. -/
structure PaymentRequest where
  amount : Option ℚ
  payment_type : Option String
deriving DecidableEq, Repr

/-- JavaScript truthiness test on an optional string field: undefined and
the empty string are falsy. -/
def jsFalsyStr : Option String → Bool
  | none => true
  | some s => s == ""

/-- JavaScript truthiness test on an optional numeric field: undefined and
zero are falsy. -/
def jsFalsyNum : Option ℚ → Bool
  | none => true
  | some x => x == 0

/-- The distinct error responses the four handlers can produce. -/
inductive ApiError
  | missingLoanParams
  | invalidLoanParams
  | missingPaymentParams
  | nonPositiveAmount
  | loanNotFound
  | customerNotFound
  | alreadyPaidOff
  | storageError (msg : String)
deriving DecidableEq, Repr

/-- Validation of POST /api/v1/loans (server.js lines 27 to 33): the first
check uses JavaScript truthiness on every field, the second the explicit
numeric constraints. -/
def validateCreateLoan (r : LoanRequest) : Option ApiError :=
  if jsFalsyStr r.customer_id || jsFalsyNum r.loan_amount ||
      jsFalsyNum r.loan_period_years || jsFalsyNum r.interest_rate_yearly then
    some .missingLoanParams
  else if r.loan_amount.getD 0 ≤ 0 ∨ r.loan_period_years.getD 0 ≤ 0 ∨
      r.interest_rate_yearly.getD 0 < 0 then
    some .invalidLoanParams
  else
    none

/-- Success body of POST /api/v1/loans (server.js lines 61 to 67). -/
structure LendResponse where
  loan_id : String
  customer_id : String
  total_amount_payable : ℚ
  monthly_emi : ℚ
  total_interest : ℚ
deriving DecidableEq, Repr

/-- Auto-provisioning of an unknown customer with a placeholder name
(server.js lines 36 to 48). -/
def ensureCustomer (cs : List Customer) (cid : String) : List Customer :=
  if cs.any (fun c => c.customer_id == cid) then cs
  else cs ++ [{ customer_id := cid, name := "Customer " ++ cid }]

/-- Handler of POST /api/v1/loans (server.js lines 24 to 71): validate,
auto-provision the customer, run the amortization calculator, insert the
loan row with status ACTIVE. -/
def createLoan (st : DBState) (newLoanId : String) (r : LoanRequest) :
    DBState × Except ApiError LendResponse :=
  match validateCreateLoan r with
  | some e => (st, .error e)
  | none =>
    let cid := r.customer_id.getD ""
    let d := calculateLoanDetails (r.loan_amount.getD 0) (r.loan_period_years.getD 0)
      (r.interest_rate_yearly.getD 0)
    let newLoan : Loan :=
      { loan_id := newLoanId, customer_id := cid,
        principal_amount := r.loan_amount.getD 0,
        total_amount := d.totalAmount,
        interest_rate := r.interest_rate_yearly.getD 0,
        loan_period_years := r.loan_period_years.getD 0,
        monthly_emi := d.monthlyEmi,
        status := .ACTIVE }
    ({ st with customers := ensureCustomer st.customers cid,
               loans := st.loans ++ [newLoan] },
     .ok { loan_id := newLoanId, customer_id := cid,
           total_amount_payable := d.totalAmount,
           monthly_emi := d.monthlyEmi,
           total_interest := d.interest })

/-- The total recomputed from principal, period and rate during payment
recording (server.js line 97) and in the ledger and overview reads
(lines 183 to 184, 229 to 230). -/
def origTotalAmount (loan : Loan) : ℚ :=
  loan.principal_amount +
    loan.principal_amount * loan.loan_period_years * (loan.interest_rate / 100)

/-- The reduce over payment amounts with initial accumulator 0, as in
payments.reduce at server.js lines 105, 185 and 228. -/
def sumAmounts (ps : List Payment) : ℚ :=
  ps.foldl (fun s p => s + p.amount) 0

/-- SELECT of the payments of one loan, in insertion order. -/
def loanPayments (ps : List Payment) (lid : String) : List Payment :=
  ps.filter (fun p => p.loan_id == lid)

/-- Validation of POST /api/v1/loans/:loan_id/payments (server.js lines
78 to 83). -/
def validatePayment (r : PaymentRequest) : Option ApiError :=
  if jsFalsyNum r.amount || jsFalsyStr r.payment_type ||
      (r.payment_type.getD "" != "EMI" && r.payment_type.getD "" != "LUMP_SUM") then
    some .missingPaymentParams
  else if r.amount.getD 0 ≤ 0 then
    some .nonPositiveAmount
  else
    none

/-- SELECT * FROM Loans WHERE loan_id = ? (first matching row). -/
def findLoan (st : DBState) (lid : String) : Option Loan :=
  st.loans.find? (fun l => l.loan_id == lid)

/-- UPDATE Loans SET status = ? WHERE loan_id = ? (server.js lines 140
to 142): every row with the given id gets the new status. -/
def setLoanStatus (ls : List Loan) (lid : String) (s : LoanStatus) : List Loan :=
  ls.map (fun l => if l.loan_id == lid then { l with status := s } else l)

/-- Success body of POST /api/v1/loans/:loan_id/payments (server.js lines
149 to 155). -/
structure PayResponse where
  payment_id : String
  loan_id : String
  message : String
  remaining_balance : ℚ
  emis_left : ℤ
deriving DecidableEq, Repr

/-- Handler of POST /api/v1/loans/:loan_id/payments (server.js lines 74
to 163). The three Boolean flags inject a storage failure at the fetch of
prior payments, at the Payment insert, and at the status update; on the
two transactional failures the ROLLBACK leaves the pre-state intact. -/
def recordPayment (st : DBState) (lid newPaymentId : String) (r : PaymentRequest)
    (fetchFails insertFails updateFails : Bool) :
    DBState × Except ApiError PayResponse :=
  match validatePayment r with
  | some e => (st, .error e)
  | none =>
    match findLoan st lid with
    | none => (st, .error .loanNotFound)
    | some loan =>
      if loan.status = .PAID_OFF then
        (st, .error .alreadyPaidOff)
      else if fetchFails then
        (st, .error (.storageError "Error fetching previous payments."))
      else
        let amount := r.amount.getD 0
        let amountPaidTillDate := sumAmounts (loanPayments st.payments lid)
        let rawBalance := origTotalAmount loan - amountPaidTillDate - amount
        let remainingBalance := if rawBalance ≤ 0 then 0 else rawBalance
        let newStatus := if rawBalance ≤ 0 then LoanStatus.PAID_OFF else loan.status
        let emisLeft : ℤ :=
          if r.payment_type.getD "" = "LUMP_SUM" ∧ loan.monthly_emi > 0 then
            ⌈remainingBalance / loan.monthly_emi⌉
          else if loan.monthly_emi > 0 then
            ⌈remainingBalance / loan.monthly_emi⌉
          else 0
        if insertFails then
          (st, .error (.storageError "Error recording payment."))
        else if updateFails then
          (st, .error (.storageError "Error updating loan status."))
        else
          ({ st with
              payments := st.payments ++
                [{ payment_id := newPaymentId, loan_id := lid,
                   amount := amount, payment_type := r.payment_type.getD "" }],
              loans := setLoanStatus st.loans lid newStatus },
           .ok { payment_id := newPaymentId, loan_id := lid,
                 message := "Payment recorded successfully. Loan status: " ++
                   statusText newStatus,
                 remaining_balance := remainingBalance,
                 emis_left := emisLeft })

/-- Success body of GET /api/v1/loans/:loan_id/ledger (server.js lines
194 to 205). -/
structure LedgerView where
  loan_id : String
  customer_id : String
  principal : ℚ
  total_amount : ℚ
  monthly_emi : ℚ
  amount_paid : ℚ
  balance_amount : ℚ
  emis_left : ℤ
  status : LoanStatus
  transactions : List Payment
deriving DecidableEq, Repr

/-- Handler of GET /api/v1/loans/:loan_id/ledger (server.js lines 167 to
208): a pure read that recomputes the totals from the loan row and the
payment rows. The balance is not clamped; only emis_left applies max 0. -/
def getLedger (st : DBState) (lid : String) : Except ApiError LedgerView :=
  match findLoan st lid with
  | none => .error .loanNotFound
  | some loan =>
    let transactions := loanPayments st.payments lid
    let amountPaid := sumAmounts transactions
    let balanceAmount := origTotalAmount loan - amountPaid
    let emisLeft : ℤ :=
      if loan.monthly_emi > 0 then ⌈max 0 balanceAmount / loan.monthly_emi⌉ else 0
    .ok { loan_id := loan.loan_id, customer_id := loan.customer_id,
          principal := loan.principal_amount,
          total_amount := origTotalAmount loan,
          monthly_emi := loan.monthly_emi,
          amount_paid := amountPaid,
          balance_amount := balanceAmount,
          emis_left := emisLeft,
          status := loan.status,
          transactions := transactions }

/-- One entry of the customer overview (server.js lines 238 to 247). -/
structure OverviewLoan where
  loan_id : String
  principal : ℚ
  total_amount : ℚ
  total_interest : ℚ
  emi_amount : ℚ
  amount_paid : ℚ
  emis_left : ℤ
  status : LoanStatus
deriving DecidableEq, Repr

/-- Success body of GET /api/v1/customers/:customer_id/overview. -/
structure OverviewView where
  customer_id : String
  total_loans : ℕ
  loans : List OverviewLoan
deriving DecidableEq, Repr

/-- Per-loan recomputation inside the overview handler (server.js lines
222 to 249). -/
def overviewEntry (st : DBState) (loan : Loan) : OverviewLoan :=
  let amountPaid := sumAmounts (loanPayments st.payments loan.loan_id)
  let totalInterest :=
    loan.principal_amount * loan.loan_period_years * (loan.interest_rate / 100)
  let totalAmountPayable := loan.principal_amount + totalInterest
  let balanceAmount := totalAmountPayable - amountPaid
  let emisLeft : ℤ :=
    if loan.monthly_emi > 0 then ⌈max 0 balanceAmount / loan.monthly_emi⌉ else 0
  { loan_id := loan.loan_id, principal := loan.principal_amount,
    total_amount := totalAmountPayable, total_interest := totalInterest,
    emi_amount := loan.monthly_emi, amount_paid := amountPaid,
    emis_left := emisLeft, status := loan.status }

/-- Handler of GET /api/v1/customers/:customer_id/overview (server.js
lines 211 to 264): a pure read over the loans of one customer. -/
def getOverview (st : DBState) (cid : String) : Except ApiError OverviewView :=
  let loans := st.loans.filter (fun l => l.customer_id == cid)
  if loans.isEmpty then .error .customerNotFound
  else
    .ok { customer_id := cid, total_loans := loans.length,
          loans := loans.map (overviewEntry st) }

/-- The four operations of the API, with the failure-injection flags of
payment recording carried as part of the operation. -/
inductive Op
  | lend (newLoanId : String) (r : LoanRequest)
  | pay (lid newPaymentId : String) (r : PaymentRequest)
      (fetchFails insertFails updateFails : Bool)
  | ledger (lid : String)
  | overview (cid : String)

/-- The two GET handlers perform no writes. -/
def Op.isRead : Op → Bool
  | .ledger _ => true
  | .overview _ => true
  | _ => false

/-- State transition of one API call; the ledger and overview handlers
only run SELECT queries, so their state effect is the identity. -/
def applyOp (st : DBState) : Op → DBState
  | .lend newLoanId r => (createLoan st newLoanId r).1
  | .pay lid pid r f i u => (recordPayment st lid pid r f i u).1
  | .ledger _ => st
  | .overview _ => st

/-- Equality of every loan field except status. -/
def loanFixedFieldsEq (l l2 : Loan) : Prop :=
  l2.loan_id = l.loan_id ∧ l2.customer_id = l.customer_id ∧
  l2.principal_amount = l.principal_amount ∧ l2.total_amount = l.total_amount ∧
  l2.interest_rate = l.interest_rate ∧
  l2.loan_period_years = l.loan_period_years ∧ l2.monthly_emi = l.monthly_emi

/-- Existing loan rows survive an operation in place: the list only grows
at the end, every pre-existing row keeps all fields except possibly
status, and a PAID_OFF status is never reverted. -/
def loansPreserved (old new : List Loan) : Prop :=
  old.length ≤ new.length ∧
  ∀ i (h1 : i < old.length) (h2 : i < new.length),
    loanFixedFieldsEq (old.get ⟨i, h1⟩) (new.get ⟨i, h2⟩) ∧
    ((old.get ⟨i, h1⟩).status = .PAID_OFF → (new.get ⟨i, h2⟩).status = .PAID_OFF)

/-- The empty store. -/
def stEmpty : DBState := { customers := [], loans := [], payments := [] }

/-- Example loan used by concrete witnesses: principal 12000 for one year
at rate 10, so total 13200 and EMI 1100. -/
def loanA : Loan :=
  { loan_id := "L1", customer_id := "c1", principal_amount := 12000,
    total_amount := 13200, interest_rate := 10, loan_period_years := 1,
    monthly_emi := 1100, status := .ACTIVE }

/-- Store holding only loanA and no payments. -/
def stOneLoan : DBState :=
  { customers := [{ customer_id := "c1", name := "Customer c1" }],
    loans := [loanA], payments := [] }

/-- A paid-off variant of loanA. -/
def loanPaid : Loan := { loanA with loan_id := "L2", status := .PAID_OFF }

/-- Store holding only the paid-off loan. -/
def stPaidLoan : DBState :=
  { customers := [{ customer_id := "c1", name := "Customer c1" }],
    loans := [loanPaid], payments := [] }

/-- Store with an overpaid loan: the single payment of 20000 exceeds the
total 13200 of loanA. -/
def stOverpaid : DBState :=
  { customers := [{ customer_id := "c1", name := "Customer c1" }],
    loans := [loanA],
    payments := [{ payment_id := "P0", loan_id := "L1", amount := 20000,
                   payment_type := "LUMP_SUM" }] }

/-- The creation request that produces loanA. -/
def lendReq : LoanRequest :=
  { customer_id := some "c1", loan_amount := some 12000,
    loan_period_years := some 1, interest_rate_yearly := some 10 }

/-- The creation response for lendReq. -/
def lendResp : LendResponse :=
  { loan_id := "L1", customer_id := "c1", total_amount_payable := 13200,
    monthly_emi := 1100, total_interest := 1200 }

/-- The identity-relevant part of a payment row: everything except the
stored payment_type. -/
def paymentCore (p : Payment) : String × String × ℚ :=
  (p.payment_id, p.loan_id, p.amount)

/-- A positive amount together with a recognised payment type passes the
payment validation. -/
theorem validatePayment_pos (a : ℚ) (pt : String) (ha : 0 < a)
    (hpt : pt = "EMI" ∨ pt = "LUMP_SUM") :
    validatePayment { amount := some a, payment_type := some pt } = none := by
  have hne : (a == 0) = false := by
    simp only [beq_eq_false_iff_ne]
    exact ha.ne'
  rcases hpt with rfl | rfl <;>
    simp [validatePayment, jsFalsyNum, jsFalsyStr, hne, not_le.mpr ha]

/-- Updating the status of the rows of one loan commutes with looking the
loan up by id. -/
theorem find_setLoanStatus (ls : List Loan) (lid : String) (s : LoanStatus) :
    (setLoanStatus ls lid s).find? (fun l => l.loan_id == lid) =
      (ls.find? (fun l => l.loan_id == lid)).map
        (fun l => { l with status := s }) := by
  induction ls with
  | nil => rfl
  | cons x t ih =>
    have hcons : setLoanStatus (x :: t) lid s =
        (if (x.loan_id == lid) = true then { x with status := s } else x) ::
          setLoanStatus t lid s := rfl
    rw [hcons]
    by_cases hx : (x.loan_id == lid) = true
    · have hx2 : (({ x with status := s } : Loan).loan_id == lid) = true := hx
      have e1 : List.find? (fun l => l.loan_id == lid)
          (({ x with status := s } : Loan) :: setLoanStatus t lid s) =
          some { x with status := s } := List.find?_cons_of_pos _ hx2
      have e2 : List.find? (fun l => l.loan_id == lid) (x :: t) = some x :=
        List.find?_cons_of_pos _ hx
      rw [if_pos hx, e1, e2]
      rfl
    · have e1 : List.find? (fun l => l.loan_id == lid)
          (x :: setLoanStatus t lid s) =
          List.find? (fun l => l.loan_id == lid) (setLoanStatus t lid s) :=
        List.find?_cons_of_neg _ hx
      have e2 : List.find? (fun l => l.loan_id == lid) (x :: t) =
          List.find? (fun l => l.loan_id == lid) t :=
        List.find?_cons_of_neg _ hx
      rw [if_neg hx, e1, e2, ih]

/-- In a list of loans with pairwise distinct ids, any member whose id
matches the looked-up id is the looked-up loan itself. -/
theorem find_eq_of_mem_nodup {ls : List Loan} {lid : String} {loan : Loan}
    (hnd : (ls.map Loan.loan_id).Nodup)
    (hf : ls.find? (fun l => l.loan_id == lid) = some loan)
    {x : Loan} (hx : x ∈ ls) (hid : x.loan_id = lid) : x = loan := by
  induction ls with
  | nil => cases hx
  | cons y t ih =>
    rw [List.map_cons, List.nodup_cons] at hnd
    by_cases hy : (y.loan_id == lid) = true
    · have e : List.find? (fun l => l.loan_id == lid) (y :: t) = some y :=
        List.find?_cons_of_pos _ hy
      rw [e] at hf
      injection hf with hf
      rcases List.mem_cons.mp hx with rfl | hxt
      · exact hf
      · exfalso
        apply hnd.1
        have hyl : y.loan_id = lid := beq_iff_eq.mp hy
        rw [hyl, ← hid]
        exact List.mem_map_of_mem Loan.loan_id hxt
    · have e : List.find? (fun l => l.loan_id == lid) (y :: t) =
          List.find? (fun l => l.loan_id == lid) t :=
        List.find?_cons_of_neg _ hy
      rw [e] at hf
      rcases List.mem_cons.mp hx with rfl | hxt
      · exact absurd (beq_iff_eq.mpr hid) hy
      · exact ih hnd.2 hf hxt

/-- loansPreserved is reflexive. -/
theorem loansPreserved_refl (ls : List Loan) : loansPreserved ls ls := by
  refine ⟨le_refl _, ?_⟩
  intro i h1 h2
  exact ⟨⟨rfl, rfl, rfl, rfl, rfl, rfl, rfl⟩, fun h => h⟩

/-- Appending rows preserves the existing ones. -/
theorem loansPreserved_append (ls more : List Loan) :
    loansPreserved ls (ls ++ more) := by
  refine ⟨by simp, ?_⟩
  intro i h1 h2
  have he : (ls ++ more).get ⟨i, h2⟩ = ls.get ⟨i, h1⟩ := by
    simp only [List.get_eq_getElem]
    exact List.getElem_append_left h1
  rw [he]
  exact ⟨⟨rfl, rfl, rfl, rfl, rfl, rfl, rfl⟩, fun h => h⟩

/-- A status update on rows that are known not to be PAID_OFF preserves
all rows in the sense of loansPreserved. -/
theorem loansPreserved_update (ls : List Loan) (lid : String) (s : LoanStatus)
    (hsafe : ∀ x ∈ ls, x.loan_id = lid → x.status ≠ .PAID_OFF) :
    loansPreserved ls (setLoanStatus ls lid s) := by
  refine ⟨by simp [setLoanStatus], ?_⟩
  intro i h1 h2
  have he : (setLoanStatus ls lid s).get ⟨i, h2⟩ =
      if ((ls.get ⟨i, h1⟩).loan_id == lid) = true
      then { ls.get ⟨i, h1⟩ with status := s } else ls.get ⟨i, h1⟩ := by
    simp only [setLoanStatus, List.get_eq_getElem, List.getElem_map]
  rw [he]
  by_cases hm : ((ls.get ⟨i, h1⟩).loan_id == lid) = true
  · rw [if_pos hm]
    refine ⟨⟨rfl, rfl, rfl, rfl, rfl, rfl, rfl⟩, ?_⟩
    intro hpo
    exact absurd hpo (hsafe _ (ls.get_mem _ _) (beq_iff_eq.mp hm))
  · rw [if_neg hm]
    exact ⟨⟨rfl, rfl, rfl, rfl, rfl, rfl, rfl⟩, fun h => h⟩

/-- C2: for every principal P > 0, years Y at least 1 and rate R at least
0, the amortization calculator returns interest P times Y times R over
100, total P plus interest, and monthly EMI total over 12 Y; in
particular on principal 12000, one year, rate 10 it returns interest
1200, total 13200 and EMI 1100. -/
theorem spec_c2_amortization_formula (P Y R : ℚ) (hP : 0 < P) (hY : 1 ≤ Y)
    (hR : 0 ≤ R) :
    (calculateLoanDetails P Y R).interest = P * Y * (R / 100) ∧
    (calculateLoanDetails P Y R).totalAmount = P + P * Y * (R / 100) ∧
    (calculateLoanDetails P Y R).monthlyEmi = (P + P * Y * (R / 100)) / (Y * 12) ∧
    calculateLoanDetails 12000 1 10 =
      { totalAmount := 13200, monthlyEmi := 1100, interest := 1200 } := by
  refine ⟨rfl, rfl, rfl, by decide⟩

/-- Witness for C2 at principal 12000, one year, rate 10. -/
theorem spec_c2_witness :
    (calculateLoanDetails 12000 1 10).interest = 12000 * 1 * (10 / 100) ∧
    (calculateLoanDetails 12000 1 10).totalAmount = 12000 + 12000 * 1 * (10 / 100) ∧
    (calculateLoanDetails 12000 1 10).monthlyEmi =
      (12000 + 12000 * 1 * (10 / 100)) / (1 * 12) ∧
    calculateLoanDetails 12000 1 10 =
      { totalAmount := 13200, monthlyEmi := 1100, interest := 1200 } :=
  spec_c2_amortization_formula 12000 1 10 (by decide) (by decide) (by decide)

/-- C10: loan creation does not enforce integrality of the loan period: a
request with period one and a half years and otherwise valid fields
passes validation and creates a loan whose interest, total and EMI are
computed from the fractional value. -/
theorem spec_c10_fractional_years_accepted :
    validateCreateLoan
      { customer_id := some "c1", loan_amount := some 1000,
        loan_period_years := some (3 / 2), interest_rate_yearly := some 10 } = none ∧
    createLoan { customers := [], loans := [], payments := [] } "L1"
      { customer_id := some "c1", loan_amount := some 1000,
        loan_period_years := some (3 / 2), interest_rate_yearly := some 10 } =
      ({ customers := [{ customer_id := "c1", name := "Customer c1" }],
         loans := [{ loan_id := "L1", customer_id := "c1",
                     principal_amount := 1000, total_amount := 1150,
                     interest_rate := 10, loan_period_years := 3 / 2,
                     monthly_emi := 1150 / 18, status := .ACTIVE }],
         payments := [] },
       .ok { loan_id := "L1", customer_id := "c1",
             total_amount_payable := 1150, monthly_emi := 1150 / 18,
             total_interest := 150 }) := by
  constructor
  · decide
  · decide

/-- C5: the code contradicts the stated validation rule. A creation
request with rate 0 and every other field present and valid is rejected
as missing parameters, because the truthiness check on the request body
treats the numeric zero as an absent field, although the explicit
constraint in the next line only rejects negative rates: validation
fails, no loan is created, and the state is untouched. -/
theorem spec_c5_zero_rate_rejected_bug :
    validateCreateLoan
      { customer_id := some "c1", loan_amount := some 1000,
        loan_period_years := some 1, interest_rate_yearly := some 0 } =
      some .missingLoanParams ∧
    createLoan stEmpty "L1"
      { customer_id := some "c1", loan_amount := some 1000,
        loan_period_years := some 1, interest_rate_yearly := some 0 } =
      (stEmpty, .error .missingLoanParams) ∧
    ¬ ((0 : ℚ) < 0) := by
  refine ⟨by decide, by decide, by decide⟩

/-- C3: once a loan is PAID_OFF every payment attempt on it leaves the
state exactly as it was and ends in an error; when the request passes
input validation the error is the already-paid-off rejection. -/
theorem spec_c3_paid_off_rejected (st : DBState) (lid pid : String)
    (r : PaymentRequest) (f i u : Bool) (loan : Loan)
    (hloan : findLoan st lid = some loan) (hpo : loan.status = .PAID_OFF) :
    (recordPayment st lid pid r f i u).1 = st ∧
    (∃ e, (recordPayment st lid pid r f i u).2 = .error e) ∧
    (validatePayment r = none →
      (recordPayment st lid pid r f i u).2 = .error .alreadyPaidOff) := by
  cases hv : validatePayment r with
  | some e =>
    refine ⟨by simp [recordPayment, hv], ⟨e, by simp [recordPayment, hv]⟩, ?_⟩
    intro hc
    exact absurd hc (by simp)
  | none =>
    refine ⟨?_, ⟨.alreadyPaidOff, ?_⟩, fun _ => ?_⟩ <;>
      simp [recordPayment, hv, hloan, hpo]

/-- Witness for C3: an EMI payment of 100 on the paid-off loan leaves the
store unchanged and is rejected as already paid off. -/
theorem spec_c3_witness :
    (recordPayment stPaidLoan "L2" "P1"
        { amount := some 100, payment_type := some "EMI" } false false false).1 =
      stPaidLoan ∧
    (∃ e, (recordPayment stPaidLoan "L2" "P1"
        { amount := some 100, payment_type := some "EMI" } false false false).2 =
      .error e) ∧
    (validatePayment { amount := some 100, payment_type := some "EMI" } = none →
      (recordPayment stPaidLoan "L2" "P1"
        { amount := some 100, payment_type := some "EMI" } false false false).2 =
      .error .alreadyPaidOff) :=
  spec_c3_paid_off_rejected stPaidLoan "L2" "P1"
    { amount := some 100, payment_type := some "EMI" } false false false loanPaid
    (by decide) rfl

/-- C4: whenever payment recording ends in an error, of any kind and at
any step, the post-state equals the pre-state: no payment row and no
status change survive. -/
theorem spec_c4_rollback_on_error (st : DBState) (lid pid : String)
    (r : PaymentRequest) (f i u : Bool) (e : ApiError)
    (h : (recordPayment st lid pid r f i u).2 = .error e) :
    (recordPayment st lid pid r f i u).1 = st := by
  cases hv : validatePayment r with
  | some e2 => simp [recordPayment, hv]
  | none =>
    cases hf : findLoan st lid with
    | none => simp [recordPayment, hv, hf]
    | some loan =>
      by_cases hst : loan.status = .PAID_OFF
      · simp [recordPayment, hv, hf, hst]
      · cases f with
        | true => simp [recordPayment, hv, hf, hst]
        | false =>
          cases i with
          | true => simp [recordPayment, hv, hf, hst]
          | false =>
            cases u with
            | true => simp [recordPayment, hv, hf, hst]
            | false => simp [recordPayment, hv, hf, hst] at h

/-- Witness for C4: with a storage failure injected at the payment
insert, recording an EMI payment of 100 on the active loan errors and
leaves the store exactly as before. -/
theorem spec_c4_witness :
    (recordPayment stOneLoan "L1" "P1"
        { amount := some 100, payment_type := some "EMI" } false true false).2 =
      .error (.storageError "Error recording payment.") ∧
    (recordPayment stOneLoan "L1" "P1"
        { amount := some 100, payment_type := some "EMI" } false true false).1 =
      stOneLoan :=
  ⟨by decide,
   spec_c4_rollback_on_error stOneLoan "L1" "P1"
     { amount := some 100, payment_type := some "EMI" } false true false
     (.storageError "Error recording payment.") (by decide)⟩

/-- C6 counterexample: on the loan with total 13200 whose single recorded
payment is 20000, the ledger returns balance_amount equal to minus 6800,
while the clamped value max 0 (13200 minus 20000) is 0, so the returned
balance is not the clamped one. -/
theorem spec_c6_counterexample :
    (getLedger stOverpaid "L1").map (fun l => l.balance_amount) = .ok (-6800) ∧
    max 0 (origTotalAmount loanA - sumAmounts (loanPayments stOverpaid.payments "L1")) = 0 ∧
    ((-6800 : ℚ) ≠ 0) := by
  refine ⟨by decide, by decide, by decide⟩

/-- C6 amended: for every ledger read of an existing loan, amount_paid is
the sum of the Payment amounts of that loan, balance_amount is the
recomputed total minus amount_paid with no floor at 0 (negative when the
loan is overpaid), and emis_left is the ceiling of max 0 balance over the
EMI when the EMI is positive, else 0. -/
theorem spec_c6_amended_ledger (st : DBState) (lid : String) (loan : Loan)
    (h : findLoan st lid = some loan) :
    (getLedger st lid).map (fun l => l.amount_paid) =
      .ok (sumAmounts (loanPayments st.payments lid)) ∧
    (getLedger st lid).map (fun l => l.total_amount) = .ok (origTotalAmount loan) ∧
    (getLedger st lid).map (fun l => l.balance_amount) =
      .ok (origTotalAmount loan - sumAmounts (loanPayments st.payments lid)) ∧
    (getLedger st lid).map (fun l => l.emis_left) =
      .ok (if loan.monthly_emi > 0 then
            ⌈max 0 (origTotalAmount loan - sumAmounts (loanPayments st.payments lid)) /
              loan.monthly_emi⌉
          else (0 : ℤ)) := by
  refine ⟨?_, ?_, ?_, ?_⟩ <;> simp [getLedger, h, Except.map]

/-- Witness for C6 amended, on the overpaid store. -/
theorem spec_c6_witness :
    (getLedger stOverpaid "L1").map (fun l => l.amount_paid) =
      .ok (sumAmounts (loanPayments stOverpaid.payments "L1")) ∧
    (getLedger stOverpaid "L1").map (fun l => l.total_amount) =
      .ok (origTotalAmount loanA) ∧
    (getLedger stOverpaid "L1").map (fun l => l.balance_amount) =
      .ok (origTotalAmount loanA - sumAmounts (loanPayments stOverpaid.payments "L1")) ∧
    (getLedger stOverpaid "L1").map (fun l => l.emis_left) =
      .ok (if loanA.monthly_emi > 0 then
            ⌈max 0 (origTotalAmount loanA - sumAmounts (loanPayments stOverpaid.payments "L1")) /
              loanA.monthly_emi⌉
          else (0 : ℤ)) :=
  spec_c6_amended_ledger stOverpaid "L1" loanA (by decide)

/-- C8: every loan produced by the creation handler stores as
total_amount exactly the value that the payment handler later recomputes
from principal, period and rate: the two derivations agree. -/
theorem spec_c8_total_amount_consistency (st : DBState) (newLoanId : String)
    (r : LoanRequest) (st2 : DBState) (resp : LendResponse)
    (h : createLoan st newLoanId r = (st2, .ok resp)) :
    ∃ L : Loan, st2.loans = st.loans ++ [L] ∧ origTotalAmount L = L.total_amount ∧
      L.total_amount = resp.total_amount_payable := by
  cases hv : validateCreateLoan r with
  | some e =>
    rw [createLoan] at h
    rw [hv] at h
    exact absurd (congrArg Prod.snd h) (by simp)
  | none =>
    rw [createLoan] at h
    rw [hv] at h
    have h1 := congrArg Prod.fst h
    have h2 := congrArg Prod.snd h
    simp only at h1 h2
    injection h2 with h3
    subst h1
    subst h3
    exact ⟨_, rfl, rfl, rfl⟩

/-- Witness for C8: creating loanA from the empty store yields a stored
total equal to the recomputed one. -/
theorem spec_c8_witness :
    ∃ L : Loan, stOneLoan.loans = stEmpty.loans ++ [L] ∧
      origTotalAmount L = L.total_amount ∧
      L.total_amount = lendResp.total_amount_payable :=
  spec_c8_total_amount_consistency stEmpty "L1" lendReq stOneLoan lendResp (by decide)

/-- C1: on an ACTIVE loan, a valid payment of positive amount a computes
the remaining balance as the recomputed total minus the sum of the prior
payments of the loan minus a; when that value is at most 0 the response
carries remaining balance 0 and the loan row becomes PAID_OFF, otherwise
the response carries the value itself and the loan stays ACTIVE. -/
theorem spec_c1_payment_balance_and_status
    (st : DBState) (lid pid : String) (a : ℚ) (pt : String) (loan : Loan)
    (hloan : findLoan st lid = some loan)
    (hactive : loan.status = .ACTIVE)
    (ha : 0 < a)
    (hpt : pt = "EMI" ∨ pt = "LUMP_SUM") :
    ((recordPayment st lid pid { amount := some a, payment_type := some pt }
        false false false).2.map (fun p => p.remaining_balance) =
      .ok (if origTotalAmount loan - sumAmounts (loanPayments st.payments lid) - a ≤ 0
           then 0
           else origTotalAmount loan - sumAmounts (loanPayments st.payments lid) - a)) ∧
    findLoan (recordPayment st lid pid { amount := some a, payment_type := some pt }
        false false false).1 lid =
      some { loan with status :=
        if origTotalAmount loan - sumAmounts (loanPayments st.payments lid) - a ≤ 0
        then .PAID_OFF else .ACTIVE } := by
  have hv := validatePayment_pos a pt ha hpt
  have hnpo : ¬ loan.status = .PAID_OFF := by
    rw [hactive]
    intro hh
    cases hh
  constructor
  · simp [recordPayment, hv, hloan, hnpo, Except.map]
  · have hfind : st.loans.find? (fun l => l.loan_id == lid) = some loan := hloan
    simp [recordPayment, hv, hloan, hnpo, findLoan, find_setLoanStatus, hfind, hactive]

/-- Witness for C1: an EMI payment of 500 on the fresh active loan. -/
theorem spec_c1_witness :
    ((recordPayment stOneLoan "L1" "P1" { amount := some 500, payment_type := some "EMI" }
        false false false).2.map (fun p => p.remaining_balance) =
      .ok (if origTotalAmount loanA - sumAmounts (loanPayments stOneLoan.payments "L1") - 500 ≤ 0
           then 0
           else origTotalAmount loanA - sumAmounts (loanPayments stOneLoan.payments "L1") - 500)) ∧
    findLoan (recordPayment stOneLoan "L1" "P1" { amount := some 500, payment_type := some "EMI" }
        false false false).1 "L1" =
      some { loanA with status :=
        if origTotalAmount loanA - sumAmounts (loanPayments stOneLoan.payments "L1") - 500 ≤ 0
        then .PAID_OFF else .ACTIVE } :=
  spec_c1_payment_balance_and_status stOneLoan "L1" "P1" 500 "EMI" loanA (by decide) rfl
    (by decide) (Or.inl rfl)

/-- C9: noninterference of the payment type. For the same loan, amount
and failure injection, recording an EMI payment and recording a LUMP_SUM
payment return the same result (same remaining balance, EMIs left,
message and error, if any) and produce the same customers, the same
loans, and payment rows that agree except for the stored payment_type of
the inserted row. -/
theorem spec_c9_payment_type_noninterference
    (st : DBState) (lid pid : String) (a : ℚ) (f i u : Bool) (ha : 0 < a) :
    (recordPayment st lid pid { amount := some a, payment_type := some "EMI" } f i u).2 =
      (recordPayment st lid pid { amount := some a, payment_type := some "LUMP_SUM" } f i u).2 ∧
    (recordPayment st lid pid { amount := some a, payment_type := some "EMI" } f i u).1.customers =
      (recordPayment st lid pid { amount := some a, payment_type := some "LUMP_SUM" } f i u).1.customers ∧
    (recordPayment st lid pid { amount := some a, payment_type := some "EMI" } f i u).1.loans =
      (recordPayment st lid pid { amount := some a, payment_type := some "LUMP_SUM" } f i u).1.loans ∧
    (recordPayment st lid pid { amount := some a, payment_type := some "EMI" } f i u).1.payments.map paymentCore =
      (recordPayment st lid pid { amount := some a, payment_type := some "LUMP_SUM" } f i u).1.payments.map paymentCore := by
  have hvE := validatePayment_pos a "EMI" ha (Or.inl rfl)
  have hvL := validatePayment_pos a "LUMP_SUM" ha (Or.inr rfl)
  cases hf : findLoan st lid with
  | none => refine ⟨?_, ?_, ?_, ?_⟩ <;> simp [recordPayment, hvE, hvL, hf]
  | some loan =>
    by_cases hst : loan.status = .PAID_OFF
    · refine ⟨?_, ?_, ?_, ?_⟩ <;> simp [recordPayment, hvE, hvL, hf, hst]
    · cases f with
      | true => refine ⟨?_, ?_, ?_, ?_⟩ <;> simp [recordPayment, hvE, hvL, hf, hst]
      | false =>
        cases i with
        | true => refine ⟨?_, ?_, ?_, ?_⟩ <;> simp [recordPayment, hvE, hvL, hf, hst]
        | false =>
          cases u with
          | true => refine ⟨?_, ?_, ?_, ?_⟩ <;> simp [recordPayment, hvE, hvL, hf, hst]
          | false =>
            by_cases hemi : (0 : ℚ) < loan.monthly_emi <;>
              refine ⟨?_, ?_, ?_, ?_⟩ <;>
                simp [recordPayment, hvE, hvL, hf, hst, hemi, paymentCore]

/-- Witness for C9 on the fresh active loan with amount 500 and no
injected failures. -/
theorem spec_c9_witness :
    (recordPayment stOneLoan "L1" "P1" { amount := some 500, payment_type := some "EMI" } false false false).2 =
      (recordPayment stOneLoan "L1" "P1" { amount := some 500, payment_type := some "LUMP_SUM" } false false false).2 ∧
    (recordPayment stOneLoan "L1" "P1" { amount := some 500, payment_type := some "EMI" } false false false).1.customers =
      (recordPayment stOneLoan "L1" "P1" { amount := some 500, payment_type := some "LUMP_SUM" } false false false).1.customers ∧
    (recordPayment stOneLoan "L1" "P1" { amount := some 500, payment_type := some "EMI" } false false false).1.loans =
      (recordPayment stOneLoan "L1" "P1" { amount := some 500, payment_type := some "LUMP_SUM" } false false false).1.loans ∧
    (recordPayment stOneLoan "L1" "P1" { amount := some 500, payment_type := some "EMI" } false false false).1.payments.map paymentCore =
      (recordPayment stOneLoan "L1" "P1" { amount := some 500, payment_type := some "LUMP_SUM" } false false false).1.payments.map paymentCore :=
  spec_c9_payment_type_noninterference stOneLoan "L1" "P1" 500 false false false (by decide)

/-- C7: over a store whose loan ids are pairwise distinct, every
operation leaves each existing loan row in place with its principal,
total, rate, period and EMI unchanged, never reverts a PAID_OFF status,
and the two read operations leave the whole store untouched. -/
theorem spec_c7_loan_immutability (st : DBState) (op : Op)
    (hnd : (st.loans.map Loan.loan_id).Nodup) :
    loansPreserved st.loans (applyOp st op).loans ∧
    (Op.isRead op = true → applyOp st op = st) := by
  cases op with
  | ledger lid => exact ⟨loansPreserved_refl _, fun _ => rfl⟩
  | overview cid => exact ⟨loansPreserved_refl _, fun _ => rfl⟩
  | lend newId r =>
    refine ⟨?_, fun h => nomatch h⟩
    cases hv : validateCreateLoan r with
    | some e =>
      simp only [applyOp, createLoan, hv]
      exact loansPreserved_refl _
    | none =>
      simp only [applyOp, createLoan, hv]
      exact loansPreserved_append _ _
  | pay lid pid r f i u =>
    refine ⟨?_, fun h => nomatch h⟩
    cases hv : validatePayment r with
    | some e =>
      simp only [applyOp, recordPayment, hv]
      exact loansPreserved_refl _
    | none =>
      cases hf : findLoan st lid with
      | none =>
        simp only [applyOp, recordPayment, hv, hf]
        exact loansPreserved_refl _
      | some loan =>
        by_cases hst : loan.status = .PAID_OFF
        · simp only [applyOp, recordPayment, hv, hf]
          rw [if_pos hst]
          exact loansPreserved_refl _
        · have hsafe : ∀ x ∈ st.loans, x.loan_id = lid → x.status ≠ .PAID_OFF := by
            intro x hx hid
            have hfind : st.loans.find? (fun l => l.loan_id == lid) = some loan := hf
            rw [find_eq_of_mem_nodup hnd hfind hx hid]
            exact hst
          cases f with
          | true =>
            simp only [applyOp, recordPayment, hv, hf]
            rw [if_neg hst]
            simp only [if_true]
            exact loansPreserved_refl _
          | false =>
            cases i with
            | true =>
              simp only [applyOp, recordPayment, hv, hf]
              rw [if_neg hst]
              simp only [Bool.false_eq_true, if_false, if_true]
              exact loansPreserved_refl _
            | false =>
              cases u with
              | true =>
                simp only [applyOp, recordPayment, hv, hf]
                rw [if_neg hst]
                simp only [Bool.false_eq_true, if_false, if_true]
                exact loansPreserved_refl _
              | false =>
                simp only [applyOp, recordPayment, hv, hf]
                rw [if_neg hst]
                simp only [Bool.false_eq_true, if_false]
                exact loansPreserved_update _ _ _ hsafe

/-- Witness for C7: a ledger read on the one-loan store changes nothing. -/
theorem spec_c7_witness : applyOp stOneLoan (Op.ledger "L1") = stOneLoan :=
  (spec_c7_loan_immutability stOneLoan (Op.ledger "L1") (by decide)).2 rfl

end Bank
